import Mathlib

/-!
Verification of the AI_Agent repository (toy condition grading and pricing).

The development shallowly embeds the Python sources:
  * `ai_agent_output.py` — grade→multiplier table, rounding, purchase-price
    estimation, and the final pipeline assembly;
  * `ai_agent/supervisor_agent.py` — the fan-out aggregator
    `_run_parallel_with_fallback`, the safe-parse step `_parse_json_maybe`,
    and the report aggregation in `process`;
  * `ai_agent/node_agents_gemini/soil_agent_gemini.py` — the soil label →
    absolute-score table and the post-response grading logic.

Conventions:
  * Python runtime values are embedded as `PyVal` (None, bool, int, float,
    str, list, dict).  Python floats are modelled as exact rationals `ℚ`;
    machine floating point is not modelled (the concrete evaluations proved
    below land on values where IEEE doubles and exact rationals agree).
  * Code that can raise is embedded in `Except Unit`; `Except.error ()`
    models an uncaught Python exception.
  * Concurrency is abstracted: the outcome of the parallel phase is a map
    from task identity to `ParOutcome` (finished with a value, finished with
    an exception, or still pending at the deadline), and fallback calls are
    arbitrary `Except`-valued behaviours; the bookkeeping after
    `concurrent.futures.wait` is embedded exactly.
-/

/-- Embedded Python runtime value (the shapes used by the repository:
None, bool, int, float, str, list, dict with string keys). -/
inductive PyVal where
  | none : PyVal
  | bool : Bool → PyVal
  | int : ℤ → PyVal
  | float : ℚ → PyVal
  | str : String → PyVal
  | list : List PyVal → PyVal
  | dict : List (String × PyVal) → PyVal

/-- Python truthiness (`bool(x)`) for the embedded values. -/
def PyVal.truthy : PyVal → Bool
  | PyVal.none => false
  | PyVal.bool b => b
  | PyVal.int n => n != 0
  | PyVal.float q => q != 0
  | PyVal.str s => s != ""
  | PyVal.list l => !l.isEmpty
  | PyVal.dict l => !l.isEmpty

/-- Is the value a Python dict? (`isinstance(x, dict)`). -/
def PyVal.isDict : PyVal → Bool
  | PyVal.dict _ => true
  | _ => false

/-- First-match association lookup; the embedded dict literals have no
duplicate keys, so this agrees with Python dict lookup. -/
def pyLookup : List (String × PyVal) → String → Option PyVal
  | [], _ => Option.none
  | (k, v) :: rest, key => if k = key then some v else pyLookup rest key

/-- Python `d.get(k)` / `d.get(k, default)` on a value known to be a dict. -/
def pyGet (l : List (String × PyVal)) (k : String) (dflt : PyVal) : PyVal :=
  (pyLookup l k).getD dflt

/-- Python `a or b`. -/
def pyOr (a b : PyVal) : PyVal := if a.truthy then a else b

/-- Python `v.get(k, dflt)` on an arbitrary value: raises `AttributeError`
when `v` is not a dict. -/
def getAttr (v : PyVal) (k : String) (dflt : PyVal) : Except Unit PyVal :=
  match v with
  | PyVal.dict l => Except.ok (pyGet l k dflt)
  | _ => Except.error ()

/-- ASCII whitespace test used to model Python `str.strip()`. -/
def pyIsSpace (c : Char) : Bool :=
  c == ' ' || c == '\t' || c == '\n' || c == '\r'

/-- Model of Python `str.strip()` (ASCII whitespace suffices for the
strings this repository manipulates). -/
def pyStrip (s : String) : String :=
  String.mk (((s.data.dropWhile pyIsSpace).reverse.dropWhile pyIsSpace).reverse)

/-- Model of Python `str.lower()` (ASCII case mapping; the Korean labels are
untouched by `lower`, as in Python). -/
def pyLower (s : String) : String := String.mk (s.data.map Char.toLower)

/-- Model of Python `str.upper()` (ASCII case mapping). -/
def pyUpper (s : String) : String := String.mk (s.data.map Char.toUpper)

/-- Python `(x or dflt).strip().lower()` where the result must be a string:
raises (`AttributeError`) when the selected value is not a string. -/
def pyStripLower : PyVal → Except Unit String
  | PyVal.str s => Except.ok (pyLower (pyStrip s))
  | _ => Except.error ()

/- ===================== ai_agent_output.py ===================== -/

/-- Embeds `_grade_to_multiplier` (`ai_agent_output.py` lines 76–82):
`A→1.00, B→0.95, C→0.90, D→0.80, E→0.65`, anything else (including `None`)
`→ 0.90`.  The multipliers are the exact rationals denoted by the source
literals. -/
def _grade_to_multiplier (grade : Option String) : ℚ :=
  let g := pyUpper (pyStrip (grade.getD ""))
  if g = "A" then 1
  else if g = "B" then 19/20
  else if g = "C" then 9/10
  else if g = "D" then 4/5
  else if g = "E" then 13/20
  else 9/10

/-- Model of Python 3 `round()` on an exact rational: round half to even
(banker's rounding). -/
def pyRound (x : ℚ) : ℤ :=
  if x - ⌊x⌋ < 1/2 then ⌊x⌋
  else if 1/2 < x - ⌊x⌋ then ⌊x⌋ + 1
  else if ⌊x⌋ % 2 = 0 then ⌊x⌋ else ⌊x⌋ + 1

/-- Embeds `_round_to_unit` (`ai_agent_output.py` lines 85–86):
`int(round(x / unit) * unit)`. -/
def _round_to_unit (x : ℚ) (unit : ℤ) : ℤ :=
  pyRound (x / (unit : ℚ)) * unit

/-- Embeds `estimate_purchase_price_by_grade` (`ai_agent_output.py`
lines 89–99).  The Python default `base_bias=0.7` is passed explicitly as
`7/10` at call sites. -/
def estimate_purchase_price_by_grade (baseline_price : ℤ)
    (damage_grade soil_grade : Option String) (base_bias : ℚ) : ℤ :=
  let dmg_mult := _grade_to_multiplier damage_grade
  let soil_mult := _grade_to_multiplier soil_grade
  let raw : ℚ := (baseline_price : ℚ) * base_bias * dmg_mult * soil_mult
  _round_to_unit raw 100

/-- Embeds the purchase-price step of `run_full_pipeline`
(`ai_agent_output.py` lines 160–167): `purchase_price = None`, overwritten
by the estimate only when the used-price baseline is present. -/
def purchase_price_step (used_avg : Option ℤ) (dmg_grade soil_grade : Option String)
    (base_bias : ℚ) : Option ℤ :=
  match used_avg with
  | Option.none => Option.none
  | some b => some (estimate_purchase_price_by_grade b dmg_grade soil_grade base_bias)

/-- The final JSON object of `run_full_pipeline` (`ai_agent_output.py`
lines 169–177). -/
structure FinalOutput where
  toy_name : PyVal
  retail_price : Option ℤ
  purchase_price : Option ℤ
  soil : Option String
  damage : Option String
  toy_type : PyVal
  material : PyVal

/-- Embeds `run_full_pipeline` (`ai_agent_output.py` lines 139–177) after
its two collaborator calls: `run_similarity_brief` (external similarity
search) enters as the already-converted fields `toy_name`, `retail`,
`used_avg` (the results of `_to_int_or_none` on the brief), and
`run_condition_agents_absolute` enters as the attribute fields. -/
def run_full_pipeline (toy_name : PyVal) (retail used_avg : Option ℤ)
    (toy_type material : PyVal) (dmg_grade soil_grade : Option String)
    (base_bias : ℚ) : FinalOutput :=
  ⟨toy_name, retail,
    purchase_price_step used_avg dmg_grade soil_grade base_bias,
    soil_grade, dmg_grade, toy_type, material⟩

/- ===================== json.loads model ===================== -/

/-- Skip JSON whitespace. -/
def jsonWs (cs : List Char) : List Char :=
  cs.dropWhile (fun c => c == ' ' || c == '\n' || c == '\t' || c == '\r')

/-- Parse the remainder of a JSON string literal (opening quote already
consumed); escape sequences are outside the modelled fragment. -/
def parseStrLit : List Char → Option (String × List Char)
  | [] => Option.none
  | c :: rest =>
    if c = '"' then some ("", rest)
    else if c = '\\' then Option.none
    else
      match parseStrLit rest with
      | some (s, r) => some (String.mk (c :: s.data), r)
      | Option.none => Option.none

/-- Numeric value of a digit list. -/
def digitsVal (l : List Char) : ℤ :=
  l.foldl (fun a c => a * 10 + ((c.toNat : ℤ) - 48)) 0

/-- Parse a JSON integer literal (optional minus sign; fractional numbers
are outside the modelled fragment). -/
def parseIntLit (cs : List Char) : Option (ℤ × List Char) :=
  match cs with
  | '-' :: rest =>
    let p := rest.span Char.isDigit
    if p.1.isEmpty then Option.none else some (-(digitsVal p.1), p.2)
  | _ =>
    let p := cs.span Char.isDigit
    if p.1.isEmpty then Option.none else some (digitsVal p.1, p.2)

mutual

/-- Fuel-bounded recursive-descent parser for a JSON fragment (null, true,
false, integers, escape-free strings, arrays, objects); inputs outside the
fragment fail, i.e. count as unparseable. -/
def parseJsonVal : Nat → List Char → Option (PyVal × List Char)
  | 0, _ => Option.none
  | Nat.succ fuel, cs =>
    match jsonWs cs with
    | [] => Option.none
    | c :: rest =>
      if c = '"' then
        match parseStrLit rest with
        | some (s, r) => some (PyVal.str s, r)
        | Option.none => Option.none
      else if c = '{' then
        match jsonWs rest with
        | '}' :: r => some (PyVal.dict [], r)
        | cs2 => parseJsonMembers fuel cs2 []
      else if c = '[' then
        match jsonWs rest with
        | ']' :: r => some (PyVal.list [], r)
        | cs2 => parseJsonItems fuel cs2 []
      else if c = 't' then
        match rest with
        | 'r' :: 'u' :: 'e' :: r => some (PyVal.bool true, r)
        | _ => Option.none
      else if c = 'f' then
        match rest with
        | 'a' :: 'l' :: 's' :: 'e' :: r => some (PyVal.bool false, r)
        | _ => Option.none
      else if c = 'n' then
        match rest with
        | 'u' :: 'l' :: 'l' :: r => some (PyVal.none, r)
        | _ => Option.none
      else if c = '-' || c.isDigit then
        match parseIntLit (c :: rest) with
        | some (n, r) => some (PyVal.int n, r)
        | Option.none => Option.none
      else Option.none

/-- Parse the members of a JSON object (after `{`, object known nonempty). -/
def parseJsonMembers : Nat → List Char → List (String × PyVal) →
    Option (PyVal × List Char)
  | 0, _, _ => Option.none
  | Nat.succ fuel, cs, acc =>
    match jsonWs cs with
    | '"' :: rest =>
      match parseStrLit rest with
      | some (k, r1) =>
        match jsonWs r1 with
        | ':' :: r2 =>
          match parseJsonVal fuel r2 with
          | some (v, r3) =>
            match jsonWs r3 with
            | ',' :: r4 => parseJsonMembers fuel r4 (acc ++ [(k, v)])
            | '}' :: r4 => some (PyVal.dict (acc ++ [(k, v)]), r4)
            | _ => Option.none
          | Option.none => Option.none
        | _ => Option.none
      | Option.none => Option.none
    | _ => Option.none

/-- Parse the items of a JSON array (after `[`, array known nonempty). -/
def parseJsonItems : Nat → List Char → List PyVal → Option (PyVal × List Char)
  | 0, _, _ => Option.none
  | Nat.succ fuel, cs, acc =>
    match parseJsonVal fuel cs with
    | some (v, r) =>
      match jsonWs r with
      | ',' :: r2 => parseJsonItems fuel r2 (acc ++ [v])
      | ']' :: r2 => some (PyVal.list (acc ++ [v]), r2)
      | _ => Option.none
    | Option.none => Option.none

end

/-- Model of the stdlib collaborator `json.loads`: succeeds only on a
string argument whose content is a JSON document of the modelled fragment
(Python raises `TypeError` on non-string input and `JSONDecodeError` on
undecodable text; both are `Except.error`). -/
def json_loads (resp : PyVal) : Except Unit PyVal :=
  match resp with
  | PyVal.str s =>
    match parseJsonVal (s.length + 10) s.data with
    | some (v, r) => if (jsonWs r).isEmpty then Except.ok v else Except.error ()
    | Option.none => Except.error ()
  | _ => Except.error ()

/- ===================== supervisor_agent.py: safe parse ===================== -/

/-- Embeds `_parse_json_maybe` (`supervisor_agent.py` lines 94–100),
parameterised by the loader: a dict is returned as-is, otherwise
`json.loads` is attempted and any exception is replaced by the default
object.  The embedding is a total function: it returns for every input. -/
def _parse_json_maybe (loads : PyVal → Except Unit PyVal)
    (resp default_obj : PyVal) : PyVal :=
  match resp with
  | PyVal.dict l => PyVal.dict l
  | other =>
    match loads other with
    | Except.ok v => v
    | Except.error _ => default_obj

/-- Default record for the type classifier (`supervisor_agent.py`
lines 102–105). -/
def typeDefault : PyVal :=
  PyVal.dict [("type", PyVal.str "others"), ("battery", PyVal.str "unknown"),
    ("size", PyVal.str "unknown")]

/-- Default record for the material classifier (`supervisor_agent.py`
lines 107–117). -/
def materialDefault : PyVal :=
  PyVal.dict [("material", PyVal.str "unknown"), ("components", PyVal.list []),
    ("secondary_hint", PyVal.none), ("confidence", PyVal.float 0),
    ("material_detail", PyVal.str ""), ("notes", PyVal.str "")]

/-- Default record for the damage classifier (`supervisor_agent.py`
lines 119–122). -/
def damageDefault : PyVal :=
  PyVal.dict [("overall", PyVal.dict [("summary", PyVal.str "unknown")]),
    ("absolute_grade", PyVal.none)]

/-- Default record for the soil classifier (`supervisor_agent.py`
lines 124–127). -/
def soilDefault : PyVal :=
  PyVal.dict [("overall", PyVal.dict [("summary", PyVal.str "unknown")]),
    ("absolute_grade", PyVal.none)]

/- =============== supervisor_agent.py: fan-out aggregator =============== -/

/-- The four classification task identities handled by the supervisor. -/
inductive TaskId where
  | type | material | damage | soil
deriving DecidableEq

/-- The fixed order in which `_run_parallel_with_fallback` checks slots in
its fallback pass (`supervisor_agent.py` lines 66–73). -/
def taskOrder : List TaskId := [TaskId.type, TaskId.material, TaskId.damage, TaskId.soil]

/-- A classifier result: the `(response, tokens)` pair returned by an
agent's `analyze`. -/
abbrev Payload := PyVal × PyVal

/-- Outcome of one task in the parallel phase, as observed after
`concurrent.futures.wait(..., timeout=30, return_when=FIRST_EXCEPTION)`:
finished with a value, finished by raising, or still pending (not done at
the deadline / early FIRST_EXCEPTION return, hence cancelled). -/
inductive ParOutcome where
  | ok (p : Payload)
  | exn
  | pending

/-- The `results` dict after the collection loop (`supervisor_agent.py`
lines 49–60): a finished future contributes its pair, a future that raised
contributes `None` (stored via `except`), a pending future is cancelled and
leaves the key absent.  A stored `None` and an absent key are identified
(both make `not results.get(name)` true; a stored pair is a nonempty tuple,
hence truthy). -/
def collectResults (par : TaskId → ParOutcome) (t : TaskId) : Option Payload :=
  match par t with
  | ParOutcome.ok p => some p
  | _ => Option.none

/-- Functional update of one result slot. -/
def updSlot (r : TaskId → Option Payload) (t : TaskId) (v : Payload) :
    TaskId → Option Payload :=
  fun t2 => if t2 = t then some v else r t2

/-- The sequential fallback pass (`supervisor_agent.py` lines 66–73):
walk the slots in order; re-run the agent (`fb t`) for every slot without
a successful result.  The fallback calls are NOT guarded by any
`try/except`, so an exception there aborts the pass and propagates
(`Except.error`).  The first component is the trace of tasks actually
re-executed. -/
def fbRun (fb : TaskId → Except Unit Payload) :
    List TaskId → (TaskId → Option Payload) →
    List TaskId × Except Unit (TaskId → Option Payload)
  | [], r => ([], Except.ok r)
  | t :: ts, r =>
    match r t with
    | some _ => fbRun fb ts r
    | Option.none =>
      match fb t with
      | Except.error e => ([t], Except.error e)
      | Except.ok v =>
        let rest := fbRun fb ts (updSlot r t v)
        (t :: rest.1, rest.2)

/-- Embeds `_run_parallel_with_fallback` (`supervisor_agent.py`
lines 27–75): collect the parallel-phase results, then run the unguarded
sequential fallback pass over the four slots. -/
def _run_parallel_with_fallback (par : TaskId → ParOutcome)
    (fb : TaskId → Except Unit Payload) : Except Unit (TaskId → Option Payload) :=
  (fbRun fb taskOrder (collectResults par)).2

/-- The list of tasks re-executed by the fallback pass of
`_run_parallel_with_fallback`. -/
def fallbackTrace (par : TaskId → ParOutcome)
    (fb : TaskId → Except Unit Payload) : List TaskId :=
  (fbRun fb taskOrder (collectResults par)).1

/- =============== supervisor_agent.py: report aggregation =============== -/

/-- The aggregated fields built by `process` (`supervisor_agent.py`
lines 129–159 and 174–187), token usage aside. -/
structure AggFields where
  toy_type : PyVal
  battery : PyVal
  size : PyVal
  material_display : String
  abs_damage_grade : PyVal
  damage_score_avg : PyVal
  damage_summary : PyVal
  abs_soil_grade : PyVal
  soil_level : PyVal
  soil_summary : PyVal

/-- Python `",".join(components)` for a list of strings; a non-list or a
list with a non-string element raises (`TypeError`; Python's treatment of
other string-iterables is outside the model — the source only ever builds
`components` as a JSON list). -/
def joinComma : List PyVal → Except Unit String
  | [] => Except.ok ""
  | [PyVal.str s] => Except.ok s
  | PyVal.str s :: rest =>
    match joinComma rest with
    | Except.ok r => Except.ok (s ++ "," ++ r)
    | Except.error e => Except.error e
  | _ => Except.error ()

/-- Python `(x).get("summary")` on the value `x = d.get("overall") or {}`:
raises when `x` is not a dict. -/
def getSummary (v : PyVal) : Except Unit PyVal :=
  match v with
  | PyVal.dict l => Except.ok (pyGet l "summary" PyVal.none)
  | _ => Except.error ()

/-- Embeds the aggregation step of `process` (`supervisor_agent.py`
lines 129–159): copy `type`/`battery`/`size` with string defaults, build
the material display string, and take the damage/soil grades, scores and
summaries from the parsed dicts via `get` and `or` chains.  A parsed
result that is not a dict makes the corresponding `.get` raise
(`AttributeError`), embedded as `Except.error`. -/
def process_aggregate (type_result material_result damage_result soil_result : PyVal) :
    Except Unit AggFields :=
  match type_result, material_result, damage_result, soil_result with
  | PyVal.dict tl, PyVal.dict ml, PyVal.dict dl, PyVal.dict sl =>
    let toy_type := pyGet tl "type" (PyVal.str "others")
    let battery := pyGet tl "battery" (PyVal.str "unknown")
    let size := pyGet tl "size" (PyVal.str "unknown")
    match pyStripLower (pyOr (pyGet ml "material" PyVal.none) (PyVal.str "unknown")) with
    | Except.error e => Except.error e
    | Except.ok material_en =>
      let components_en := pyOr (pyGet ml "components" PyVal.none) (PyVal.list [])
      let mdE : Except Unit String :=
        if material_en = "mixed" ∧ components_en.truthy = true then
          match components_en with
          | PyVal.list cs =>
            match joinComma cs with
            | Except.ok j => Except.ok ("mixed(" ++ j ++ ")")
            | Except.error e => Except.error e
          | _ => Except.error ()
        else Except.ok material_en
      match mdE with
      | Except.error e => Except.error e
      | Except.ok material_display =>
        let abs_damage_grade :=
          pyOr (pyGet dl "absolute_grade" PyVal.none) (pyGet dl "grade" PyVal.none)
        let damage_score_avg :=
          pyOr (pyGet dl "absolute_score_avg" PyVal.none)
            (pyGet dl "query_damage_score" PyVal.none)
        match getSummary (pyOr (pyGet dl "overall" PyVal.none) (PyVal.dict [])) with
        | Except.error e => Except.error e
        | Except.ok damage_summary =>
          let abs_soil_grade :=
            pyOr (pyGet sl "absolute_grade" PyVal.none) (pyGet sl "grade" PyVal.none)
          let soil_level := pyGet sl "soil_level" PyVal.none
          match getSummary (pyOr (pyGet sl "overall" PyVal.none) (PyVal.dict [])) with
          | Except.error e => Except.error e
          | Except.ok soil_summary =>
            Except.ok ⟨toy_type, battery, size, material_display, abs_damage_grade,
              damage_score_avg, damage_summary, abs_soil_grade, soil_level, soil_summary⟩
  | _, _, _, _ => Except.error ()

/-- Python `_tok` (`supervisor_agent.py` lines 162–163):
`x.get("total_tokens", 0) if isinstance(x, dict) else 0`. -/
def _tok (x : PyVal) : PyVal :=
  match x with
  | PyVal.dict l => pyGet l "total_tokens" (PyVal.int 0)
  | _ => PyVal.int 0

/-- Python integer `+` on embedded values (the token counters are
integers; adding a non-integer raises `TypeError`). -/
def pyAddInt (a b : PyVal) : Except Unit PyVal :=
  match a, b with
  | PyVal.int x, PyVal.int y => Except.ok (PyVal.int (x + y))
  | _, _ => Except.error ()

/-- The `token_usage` dict of `process` (`supervisor_agent.py`
lines 165–171). -/
def token_usage_of (tT mT dT sT : PyVal) : Except Unit PyVal :=
  match pyAddInt (_tok tT) (_tok mT) with
  | Except.error e => Except.error e
  | Except.ok s1 =>
    match pyAddInt s1 (_tok dT) with
    | Except.error e => Except.error e
    | Except.ok s2 =>
      match pyAddInt s2 (_tok sT) with
      | Except.error e => Except.error e
      | Except.ok total =>
        Except.ok (PyVal.dict [("type_agent", _tok tT), ("material_agent", _tok mT),
          ("damage_agent", _tok dT), ("soil_agent", _tok sT), ("total", total)])

/-- Embeds `process` (`supervisor_agent.py` lines 77–189) downstream of
image optimisation: run the aggregator, destructure the four
`(response, tokens)` slots, safe-parse each response against its default
record, aggregate, and attach token usage. -/
def process (par : TaskId → ParOutcome) (fb : TaskId → Except Unit Payload) :
    Except Unit (AggFields × PyVal) :=
  match _run_parallel_with_fallback par fb with
  | Except.error e => Except.error e
  | Except.ok r =>
    match r TaskId.type, r TaskId.material, r TaskId.damage, r TaskId.soil with
    | some (tResp, tTok), some (mResp, mTok), some (dResp, dTok), some (sResp, sTok) =>
      let type_result := _parse_json_maybe json_loads tResp typeDefault
      let material_result := _parse_json_maybe json_loads mResp materialDefault
      let damage_result := _parse_json_maybe json_loads dResp damageDefault
      let soil_result := _parse_json_maybe json_loads sResp soilDefault
      match process_aggregate type_result material_result damage_result soil_result with
      | Except.error e => Except.error e
      | Except.ok agg =>
        match token_usage_of tTok mTok dTok sTok with
        | Except.error e => Except.error e
        | Except.ok tu => Except.ok (agg, tu)
    | _, _, _, _ => Except.error ()

/-- The category taxonomy of the type classifier (prompt of
`type_agent_gemini.py`, line 41). -/
def TYPE_TAXONOMY : List String :=
  ["robot", "building_blocks", "dolls", "vehicles", "educational",
    "action_figures", "board_games", "musical", "sports", "others"]

/-- The grade letters (`GradeLetter` of the data model). -/
def GRADE_LETTERS : List String := ["A", "B", "C", "D", "E"]

/- =============== soil_agent_gemini.py =============== -/

/-- Substring test: `k` occurs contiguously in `t` (Python `k in t`). -/
def infixCheck [BEq α] : List α → List α → Bool
  | l, [] => l.isEmpty
  | l, b :: bs => l.isPrefixOf (b :: bs) || infixCheck l bs

/-- Python `k in t` for strings. -/
def substrIn (k t : String) : Bool := infixCheck k.data t.data

/-- Embeds `_SOIL_LABEL_TO_ABS` (`soil_agent_gemini.py` lines 15–21); a
Python dict iterates in insertion order, so the embedding is the ordered
association list. -/
def _SOIL_LABEL_TO_ABS : List (String × ℤ) :=
  [("깨끗", 4), ("보통", 3), ("약간 더러움", 2), ("더러움", 1), ("매우 더러움", 0)]

/-- Embeds `_SEVERE_DIRT_KWS` (`soil_agent_gemini.py` lines 24–27). -/
def _SEVERE_DIRT_KWS : List String :=
  ["끈적", "sticky", "곰팡", "mold", "기름때", "heavy stain", "찌든때",
    "기름", "oil stain", "진흙이 두껍게", "mud caked"]

/-- The label loop of `_label_to_abs` (`soil_agent_gemini.py` lines 44–47):
first table entry whose key occurs in the text wins; otherwise 2. -/
def soilLabelLoop : List (String × ℤ) → String → ℤ
  | [], _ => 2
  | (k, v) :: rest, t => if substrIn k t then v else soilLabelLoop rest t

/-- Embeds `_label_to_abs` (`soil_agent_gemini.py` lines 42–47):
`t = (s or "").strip()`, then the table loop.  A non-string truthy value
makes `.strip()` raise (`AttributeError`). -/
def _label_to_abs (s : PyVal) : Except Unit ℤ :=
  match pyOr s (PyVal.str "") with
  | PyVal.str t => Except.ok (soilLabelLoop _SOIL_LABEL_TO_ABS (pyStrip t))
  | _ => Except.error ()

/-- Embeds `_score_to_grade_single` (`soil_agent_gemini.py` lines 49–51):
clamp to `0..4` and map `4→A … 0→E`. -/
def _score_to_grade_single (score : ℤ) : String :=
  if max 0 (min 4 score) = 4 then "A"
  else if max 0 (min 4 score) = 3 then "B"
  else if max 0 (min 4 score) = 2 then "C"
  else if max 0 (min 4 score) = 1 then "D"
  else "E"

/-- Embeds the post-response part of `SoilAgent.analyze`
(`soil_agent_gemini.py` lines 141–159), as a function of the parsed model
payload `base` (the result of the JSON parse or its hard-coded fallback):
extract the label and notes, score the label, demote a score of 1 to 0 when
the lowercased notes contain a severe-dirt keyword, and build the result
dict.  `.get` on a non-dict payload and `.lower()` on a non-string notes
value raise, embedded as `Except.error`. -/
def soil_analyze_post (base : PyVal) : Except Unit PyVal :=
  match base with
  | PyVal.dict bl =>
    match pyOr (pyGet bl "overall" PyVal.none) (PyVal.dict []) with
    | PyVal.dict ovl =>
      let summary := pyOr (pyGet ovl "summary" PyVal.none) (PyVal.str "")
      let soil_label := pyOr (pyGet bl "soil" PyVal.none) (PyVal.str "보통")
      match pyOr (pyGet bl "notes" PyVal.none) (PyVal.str "") with
      | PyVal.str notesRaw =>
        let notes := pyLower notesRaw
        match _label_to_abs soil_label with
        | Except.error e => Except.error e
        | Except.ok soil_abs0 =>
          let soil_abs : ℤ :=
            if soil_abs0 = 1 ∧ (_SEVERE_DIRT_KWS.any fun k => substrIn k notes) = true
            then 0 else soil_abs0
          let grade := _score_to_grade_single soil_abs
          Except.ok (PyVal.dict
            [("overall", pyGet bl "overall" (PyVal.dict [("summary", summary)])),
             ("absolute_score_avg", PyVal.float (soil_abs : ℚ)),
             ("absolute_grade", PyVal.str grade)])
      | _ => Except.error ()
    | _ => Except.error ()
  | _ => Except.error ()

/-- Lookup in the result dict produced by the embedded code (total; only
applied to dict-shaped outputs in the theorems below). -/
def pyGetOut (v : PyVal) (k : String) : Option PyVal :=
  match v with
  | PyVal.dict l => pyLookup l k
  | _ => Option.none

/-- Does the (string-valued) `notes` field of a parsed soil payload
contain a severe-dirt keyword after lowercasing?  (The expression tested
by the demotion step of `SoilAgent.analyze`, line 148.) -/
def notesHasSevere (bl : List (String × PyVal)) : Bool :=
  match pyOr (pyGet bl "notes" PyVal.none) (PyVal.str "") with
  | PyVal.str notesRaw => _SEVERE_DIRT_KWS.any fun k => substrIn k (pyLower notesRaw)
  | _ => false

/- =============== concrete scenarios used by the theorems =============== -/

/-- A concrete successful classifier payload. -/
def okPayload : Payload :=
  (PyVal.str "\x7b\"type\":\"robot\",\"battery\":\"unknown\",\"size\":\"small\"\x7d",
    PyVal.dict [("total_tokens", PyVal.int 0)])

/-- Parallel phase where the damage classifier raised and the rest
finished (reachable: `FIRST_EXCEPTION` returns once damage raises, the
others being already done). -/
def parDamageExn : TaskId → ParOutcome :=
  fun t => match t with
  | TaskId.damage => ParOutcome.exn
  | _ => ParOutcome.ok okPayload

/-- Fallback behaviour where every re-run raises (e.g. the Gemini call
fails again: `DamageAgent.analyze` re-raises `RuntimeError`). -/
def fbAllFail : TaskId → Except Unit Payload :=
  fun _ => Except.error ()

/-- Parallel phase where material raised and damage was still pending at
the early `FIRST_EXCEPTION` return. -/
def parTwoMissing : TaskId → ParOutcome :=
  fun t => match t with
  | TaskId.material => ParOutcome.exn
  | TaskId.damage => ParOutcome.pending
  | _ => ParOutcome.ok okPayload

/-- Fallback behaviour where the material re-run raises and any other
re-run would succeed. -/
def fbMaterialFails : TaskId → Except Unit Payload :=
  fun t => match t with
  | TaskId.material => Except.error ()
  | _ => Except.ok okPayload

/-- Parallel phase where every classifier finished in time. -/
def parAllOk : TaskId → ParOutcome := fun _ => ParOutcome.ok okPayload

/-- Fallback behaviour where every re-run would succeed. -/
def fbAllOk : TaskId → Except Unit Payload := fun _ => Except.ok okPayload

/- ===================== multiplier and rounding lemmas ===================== -/

theorem gm_A : _grade_to_multiplier (some "A") = 1 := rfl

theorem gm_B : _grade_to_multiplier (some "B") = 19/20 := rfl

theorem gm_C : _grade_to_multiplier (some "C") = 9/10 := rfl

theorem gm_D : _grade_to_multiplier (some "D") = 4/5 := rfl

theorem gm_E : _grade_to_multiplier (some "E") = 13/20 := rfl

theorem gm_none : _grade_to_multiplier Option.none = 9/10 := rfl

/-- `pyRound` on a value in `[n, n + 1/2)` yields `n`. -/
theorem pyRound_of_lt (x : ℚ) (n : ℤ) (h1 : (n : ℚ) ≤ x) (h2 : x < (n : ℚ) + 1/2) :
    pyRound x = n := by
  have hf : ⌊x⌋ = n := Int.floor_eq_iff.mpr ⟨h1, by linarith⟩
  unfold pyRound
  rw [hf, if_pos (by linarith)]

/-- `pyRound` on a value in `(n + 1/2, n + 1)` yields `n + 1`. -/
theorem pyRound_of_gt (x : ℚ) (n : ℤ) (h1 : (n : ℚ) + 1/2 < x) (h2 : x < (n : ℚ) + 1) :
    pyRound x = n + 1 := by
  have hf : ⌊x⌋ = n := Int.floor_eq_iff.mpr ⟨by linarith, h2⟩
  unfold pyRound
  rw [hf, if_neg (by linarith), if_pos (by linarith)]

/-- `pyRound` at an exact half goes to the even neighbour. -/
theorem pyRound_tie (n : ℤ) : pyRound ((n : ℚ) + 1/2) = if n % 2 = 0 then n else n + 1 := by
  have hf : ⌊(n : ℚ) + 1/2⌋ = n := by
    rw [add_comm, Int.floor_add_int]
    norm_num
  have hr : (n : ℚ) + 1/2 - (n : ℚ) = 1/2 := by ring
  unfold pyRound
  rw [hf, hr, if_neg (lt_irrefl _), if_neg (lt_irrefl _)]

/-- `pyRound` overshoots by at most a half. -/
theorem pyRound_le_add_half (x : ℚ) : (pyRound x : ℚ) ≤ x + 1/2 := by
  have hA := Int.floor_le x
  have hB := Int.lt_floor_add_one x
  unfold pyRound
  split_ifs with h1 h2 h3 <;> push_cast <;> linarith

/-- `pyRound` undershoots by at most a half. -/
theorem sub_half_le_pyRound (x : ℚ) : x - 1/2 ≤ (pyRound x : ℚ) := by
  have hA := Int.floor_le x
  have hB := Int.lt_floor_add_one x
  unfold pyRound
  split_ifs with h1 h2 h3 <;> push_cast <;> linarith

/-- `pyRound` of a nonnegative value is nonnegative. -/
theorem pyRound_nonneg (x : ℚ) (h : 0 ≤ x) : 0 ≤ pyRound x := by
  have hf : 0 ≤ ⌊x⌋ := Int.floor_nonneg.mpr h
  unfold pyRound
  split_ifs <;> omega

/-- Reduce an estimator evaluation to a `pyRound` evaluation. -/
theorem estimate_eval (b : ℤ) (d s : Option String) (bias : ℚ) (k : ℤ)
    (h : pyRound ((b : ℚ) * bias * _grade_to_multiplier d * _grade_to_multiplier s / 100) = k) :
    estimate_purchase_price_by_grade b d s bias = k * 100 := by
  simp only [estimate_purchase_price_by_grade, _round_to_unit]
  push_cast
  rw [h]

/-- Every multiplier of the table lies in `[13/20, 1]`. -/
theorem gm_bounds (g : Option String) :
    13/20 ≤ _grade_to_multiplier g ∧ _grade_to_multiplier g ≤ 1 := by
  simp only [_grade_to_multiplier]
  split_ifs <;> norm_num

/-- C3: for every non-null integer baseline `b`, grades and bias, the
estimator computes `b × bias × m(damage) × m(soil)` and returns a nearest
multiple of 100 (distance at most 50), where `m` is the fixed table
`A:1.00, B:0.95, C:0.90, D:0.80, E:0.65` and an unrecognized or null grade
gets the `C` multiplier `0.90`; in particular
`estimate(10000, "A", "A") = 7000` and `estimate(10000, null, "B") = 6000`. -/
theorem estimate_formula_spec :
    (_grade_to_multiplier (some "A") = 1 ∧ _grade_to_multiplier (some "B") = 19/20 ∧
      _grade_to_multiplier (some "C") = 9/10 ∧ _grade_to_multiplier (some "D") = 4/5 ∧
      _grade_to_multiplier (some "E") = 13/20 ∧ _grade_to_multiplier Option.none = 9/10)
    ∧ (∀ g : String, pyUpper (pyStrip g) ∉ GRADE_LETTERS →
        _grade_to_multiplier (some g) = 9/10)
    ∧ (∀ (b : ℤ) (d s : Option String) (bias : ℚ),
        estimate_purchase_price_by_grade b d s bias % 100 = 0 ∧
        |(estimate_purchase_price_by_grade b d s bias : ℚ) -
          (b : ℚ) * bias * _grade_to_multiplier d * _grade_to_multiplier s| ≤ 50)
    ∧ estimate_purchase_price_by_grade 10000 (some "A") (some "A") (7/10) = 7000
    ∧ estimate_purchase_price_by_grade 10000 Option.none (some "B") (7/10) = 6000 := by
  refine ⟨⟨rfl, rfl, rfl, rfl, rfl, rfl⟩, ?_, ?_, ?_, ?_⟩
  · intro g hg
    simp only [_grade_to_multiplier, Option.getD]
    split_ifs with h1 h2 h3 h4 h5
    · exact absurd (by rw [h1]; decide) hg
    · exact absurd (by rw [h2]; decide) hg
    · rfl
    · exact absurd (by rw [h4]; decide) hg
    · exact absurd (by rw [h5]; decide) hg
    · rfl
  · intro b d s bias
    constructor
    · simp only [estimate_purchase_price_by_grade, _round_to_unit]
      omega
    · simp only [estimate_purchase_price_by_grade, _round_to_unit]
      push_cast
      have h1 := pyRound_le_add_half ((b : ℚ) * bias * _grade_to_multiplier d
        * _grade_to_multiplier s / 100)
      have h2 := sub_half_le_pyRound ((b : ℚ) * bias * _grade_to_multiplier d
        * _grade_to_multiplier s / 100)
      rw [abs_le]
      constructor <;> linarith
  · have h : pyRound (((10000 : ℤ) : ℚ) * (7/10) * _grade_to_multiplier (some "A")
        * _grade_to_multiplier (some "A") / 100) = 70 := by
      rw [gm_A]
      have e : ((10000 : ℤ) : ℚ) * (7/10) * 1 * 1 / 100 = ((70 : ℤ) : ℚ) := by norm_num
      rw [e]
      exact pyRound_of_lt _ 70 (by norm_num) (by norm_num)
    exact (estimate_eval 10000 (some "A") (some "A") (7/10) 70 h).trans (by norm_num)
  · have h : pyRound (((10000 : ℤ) : ℚ) * (7/10) * _grade_to_multiplier Option.none
        * _grade_to_multiplier (some "B") / 100) = 60 := by
      rw [gm_none, gm_B]
      have e : ((10000 : ℤ) : ℚ) * (7/10) * (9/10) * (19/20) / 100 = 1197/20 := by norm_num
      rw [e]
      have := pyRound_of_gt (1197/20) 59 (by norm_num) (by norm_num)
      simpa using this
    exact (estimate_eval 10000 Option.none (some "B") (7/10) 60 h).trans (by norm_num)

/-- C3 witness: the unrecognized grade "Z" gets the C multiplier. -/
theorem estimate_formula_spec_witness : _grade_to_multiplier (some "Z") = 9/10 :=
  estimate_formula_spec.2.1 "Z" (by decide)

/-- C4 counterexample: at baseline 15000 with grades A and C the raw
product is exactly 9450, midway between 9400 and 9500, and the estimator
returns the SMALLER multiple 9400 — ties do not round up. -/
theorem ties_counterexample :
    ((15000 : ℤ) : ℚ) * (7/10) * _grade_to_multiplier (some "A")
        * _grade_to_multiplier (some "C") = 9450
    ∧ (9450 : ℚ) - 9400 = 50 ∧ (9500 : ℚ) - 9450 = 50
    ∧ estimate_purchase_price_by_grade 15000 (some "A") (some "C") (7/10) = 9400 := by
  refine ⟨by rw [gm_A, gm_C]; norm_num, by norm_num, by norm_num, ?_⟩
  have h : pyRound (((15000 : ℤ) : ℚ) * (7/10) * _grade_to_multiplier (some "A")
      * _grade_to_multiplier (some "C") / 100) = 94 := by
    rw [gm_A, gm_C]
    have e : ((15000 : ℤ) : ℚ) * (7/10) * 1 * (9/10) / 100 = ((94 : ℤ) : ℚ) + 1/2 := by
      norm_num
    rw [e, pyRound_tie]
    norm_num
  exact (estimate_eval 15000 (some "A") (some "C") (7/10) 94 h).trans (by norm_num)

/-- C4 (amended): the estimator rounds to the nearest 100 with ties going
to the even multiple (Python `round` is half-to-even), not up: a raw
product equal to `100n + 50` yields `100n` when `n` is even and
`100(n+1)` when `n` is odd; in particular
`estimate(10000, "E", "E", baseBias=0.7) = 3000` (not a tie). -/
theorem ties_round_half_even :
    (∀ (b : ℤ) (d s : Option String) (bias : ℚ) (n : ℤ),
      (b : ℚ) * bias * _grade_to_multiplier d * _grade_to_multiplier s = 100 * n + 50 →
      estimate_purchase_price_by_grade b d s bias
        = if n % 2 = 0 then 100 * n else 100 * (n + 1))
    ∧ estimate_purchase_price_by_grade 10000 (some "E") (some "E") (7/10) = 3000 := by
  constructor
  · intro b d s bias n h
    have harg : (b : ℚ) * bias * _grade_to_multiplier d * _grade_to_multiplier s / 100
        = (n : ℚ) + 1/2 := by
      rw [h]; ring
    have h2 : pyRound ((b : ℚ) * bias * _grade_to_multiplier d
        * _grade_to_multiplier s / 100) = if n % 2 = 0 then n else n + 1 := by
      rw [harg]; exact pyRound_tie n
    by_cases hn : n % 2 = 0
    · rw [if_pos hn] at h2
      rw [if_pos hn]
      exact (estimate_eval b d s bias n h2).trans (by ring)
    · rw [if_neg hn] at h2
      rw [if_neg hn]
      exact (estimate_eval b d s bias (n + 1) h2).trans (by ring)
  · have h : pyRound (((10000 : ℤ) : ℚ) * (7/10) * _grade_to_multiplier (some "E")
        * _grade_to_multiplier (some "E") / 100) = 30 := by
      rw [gm_E]
      have e : ((10000 : ℤ) : ℚ) * (7/10) * (13/20) * (13/20) / 100 = 1183/40 := by norm_num
      rw [e]
      have := pyRound_of_gt (1183/40) 29 (by norm_num) (by norm_num)
      simpa using this
    exact (estimate_eval 10000 (some "E") (some "E") (7/10) 30 h).trans (by norm_num)

/-- C4 witness: the tie case at raw product 9450 (`n = 94`, even). -/
theorem ties_round_half_even_witness :
    estimate_purchase_price_by_grade 15000 (some "A") (some "C") (7/10) = 9400 := by
  have h := ties_round_half_even.1 15000 (some "A") (some "C") (7/10) 94
    (by rw [gm_A, gm_C]; norm_num)
  simpa using h

/-- C5: a missing baseline yields null, never zero and never an error:
the pricing step returns `none` for a null baseline whatever the grades,
and the final pipeline output's `purchase_price` is `none` whenever the
similarity collaborator supplies no used-price baseline. -/
theorem missing_baseline_null :
    (∀ (d s : Option String) (bias : ℚ),
      purchase_price_step Option.none d s bias = Option.none)
    ∧ (∀ (tn : PyVal) (retail : Option ℤ) (tt m : PyVal) (d s : Option String) (bias : ℚ),
        (run_full_pipeline tn retail Option.none tt m d s bias).purchase_price
          = Option.none) :=
  ⟨fun _ _ _ => rfl, fun _ _ _ _ _ _ _ => rfl⟩

/-- C6 counterexample: at the nonnegative baseline 80 with grades A/A the
estimate is 100, which exceeds the baseline — the `0 ≤ p ≤ b` invariant
fails for small baselines. -/
theorem price_bound_counterexample :
    (0 : ℤ) ≤ 80
    ∧ estimate_purchase_price_by_grade 80 (some "A") (some "A") (7/10) = 100
    ∧ ¬(estimate_purchase_price_by_grade 80 (some "A") (some "A") (7/10) ≤ 80) := by
  have h : pyRound (((80 : ℤ) : ℚ) * (7/10) * _grade_to_multiplier (some "A")
      * _grade_to_multiplier (some "A") / 100) = 1 := by
    rw [gm_A]
    have e : ((80 : ℤ) : ℚ) * (7/10) * 1 * 1 / 100 = 14/25 := by norm_num
    rw [e]
    have := pyRound_of_gt (14/25) 0 (by norm_num) (by norm_num)
    simpa using this
  have he : estimate_purchase_price_by_grade 80 (some "A") (some "A") (7/10) = 100 :=
    (estimate_eval 80 (some "A") (some "A") (7/10) 1 h).trans (by norm_num)
  exact ⟨by norm_num, he, by rw [he]; norm_num⟩

/-- C6 (amended): with the default bias 0.7, the estimate is always
nonnegative for a nonnegative baseline, and the upper bound `p ≤ b` holds
for every baseline `b ≥ 100` (rounding up to the nearest 100 can exceed
baselines below 100). -/
theorem price_bound_amended :
    ∀ (b : ℤ) (d s : Option String),
      (0 ≤ b → 0 ≤ estimate_purchase_price_by_grade b d s (7/10))
      ∧ (100 ≤ b → estimate_purchase_price_by_grade b d s (7/10) ≤ b) := by
  intro b d s
  have hd := gm_bounds d
  have hs := gm_bounds s
  have hd0 : (0 : ℚ) ≤ _grade_to_multiplier d := le_trans (by norm_num) hd.1
  have hs0 : (0 : ℚ) ≤ _grade_to_multiplier s := le_trans (by norm_num) hs.1
  constructor
  · intro hb
    have hbq : (0 : ℚ) ≤ (b : ℚ) := by exact_mod_cast hb
    have hraw : (0 : ℚ) ≤ (b : ℚ) * (7/10) * _grade_to_multiplier d
        * _grade_to_multiplier s / 100 := by positivity
    have := pyRound_nonneg _ hraw
    simp only [estimate_purchase_price_by_grade, _round_to_unit]
    push_cast
    omega
  · intro hb
    have hbq : (100 : ℚ) ≤ (b : ℚ) := by exact_mod_cast hb
    have hle := pyRound_le_add_half ((b : ℚ) * (7/10) * _grade_to_multiplier d
      * _grade_to_multiplier s / 100)
    have hb0 : (0 : ℚ) ≤ (b : ℚ) := by linarith
    have hmm : _grade_to_multiplier d * _grade_to_multiplier s ≤ 1 := by
      nlinarith [hd.2, hs.2, hd0, hs0]
    have hrawle : (b : ℚ) * (7/10) * _grade_to_multiplier d * _grade_to_multiplier s
        ≤ (7/10) * (b : ℚ) := by
      calc (b : ℚ) * (7/10) * _grade_to_multiplier d * _grade_to_multiplier s
          = ((b : ℚ) * (7/10)) * (_grade_to_multiplier d * _grade_to_multiplier s) := by
            ring
        _ ≤ ((b : ℚ) * (7/10)) * 1 := by
            apply mul_le_of_le_one_right (by positivity) hmm |>.trans
            exact le_of_eq (mul_one _).symm
        _ = (7/10) * (b : ℚ) := by ring
    by_cases hbig : (167 : ℤ) ≤ b
    · have hbigq : (167 : ℚ) ≤ (b : ℚ) := by exact_mod_cast hbig
      have : (pyRound ((b : ℚ) * (7/10) * _grade_to_multiplier d
          * _grade_to_multiplier s / 100) : ℚ) * 100 ≤ (b : ℚ) := by linarith
      simp only [estimate_purchase_price_by_grade, _round_to_unit]
      push_cast
      exact_mod_cast this
    · push_neg at hbig
      have hb166 : b ≤ 166 := by omega
      have hbigq : (b : ℚ) ≤ 166 := by exact_mod_cast hb166
      have hlt : (pyRound ((b : ℚ) * (7/10) * _grade_to_multiplier d
          * _grade_to_multiplier s / 100) : ℚ) < 2 := by linarith
      have hltz : pyRound ((b : ℚ) * (7/10) * _grade_to_multiplier d
          * _grade_to_multiplier s / 100) < (2 : ℤ) := by exact_mod_cast hlt
      have hle1 : pyRound ((b : ℚ) * (7/10) * _grade_to_multiplier d
          * _grade_to_multiplier s / 100) ≤ 1 := by omega
      simp only [estimate_purchase_price_by_grade, _round_to_unit]
      push_cast
      omega

/-- C6 witness: both bounds at baseline 10000 with grades B and C. -/
theorem price_bound_amended_witness :
    0 ≤ estimate_purchase_price_by_grade 10000 (some "B") (some "C") (7/10)
    ∧ estimate_purchase_price_by_grade 10000 (some "B") (some "C") (7/10) ≤ 10000 :=
  ⟨(price_bound_amended 10000 (some "B") (some "C")).1 (by norm_num),
    (price_bound_amended 10000 (some "B") (some "C")).2 (by norm_num)⟩

/- ===================== fallback-pass lemmas ===================== -/

theorem taskOrder_nodup : taskOrder.Nodup := by decide

theorem mem_taskOrder (t : TaskId) : t ∈ taskOrder := by cases t <;> decide

/-- A slot holding a successful result is never touched by the fallback
pass. -/
theorem fbRun_not_mem_of_some (fb : TaskId → Except Unit Payload) :
    ∀ (ts : List TaskId) (r : TaskId → Option Payload) (t : TaskId) (p : Payload),
      r t = some p → t ∉ (fbRun fb ts r).1 := by
  intro ts
  induction ts with
  | nil => intro r t p _ h; simp [fbRun] at h
  | cons t' ts ih =>
    intro r t p hp
    simp only [fbRun]
    cases hr : r t' with
    | some q =>
      exact ih r t p hp
    | none =>
      cases hfb : fb t' with
      | error e =>
        intro h
        simp only [List.mem_singleton] at h
        rw [h, hr] at hp
        exact Option.noConfusion hp
      | ok v =>
        intro h
        rcases List.mem_cons.mp h with h1 | h2
        · rw [h1, hr] at hp
          exact Option.noConfusion hp
        · have hne : t ≠ t' := by
            intro he
            rw [he, hr] at hp
            exact Option.noConfusion hp
          have hupd : updSlot r t' v t = some p := by
            simp [updSlot, hne, hp]
          exact ih (updSlot r t' v) t p hupd h2

/-- When no needed fallback call raises, the fallback pass executes
exactly the slots without a successful result, in order, and finishes
without an exception. -/
theorem fbRun_trace_exact (fb : TaskId → Except Unit Payload) :
    ∀ (ts : List TaskId) (r : TaskId → Option Payload), ts.Nodup →
      (∀ t ∈ ts, r t = Option.none → ∃ v, fb t = Except.ok v) →
      (fbRun fb ts r).1 = ts.filter (fun t => (r t).isNone)
      ∧ ∃ r2, (fbRun fb ts r).2 = Except.ok r2 := by
  intro ts
  induction ts with
  | nil => intro r _ _; exact ⟨rfl, r, rfl⟩
  | cons t' ts ih =>
    intro r hnd hok
    simp only [fbRun]
    cases hr : r t' with
    | some q =>
      have hfilter : (t' :: ts).filter (fun t => (r t).isNone)
          = ts.filter (fun t => (r t).isNone) := by
        simp [List.filter_cons, hr]
      rw [hfilter]
      exact ih r (List.Nodup.of_cons hnd) (fun t ht => hok t (List.mem_cons_of_mem _ ht))
    | none =>
      obtain ⟨v, hfb⟩ := hok t' (List.mem_cons_self _ _) hr
      rw [hfb]
      have ht'nmem : t' ∉ ts := (List.nodup_cons.mp hnd).1
      have hok2 : ∀ t ∈ ts, updSlot r t' v t = Option.none → ∃ w, fb t = Except.ok w := by
        intro t ht hnone
        by_cases he : t = t'
        · rw [he] at ht; exact absurd ht ht'nmem
        · apply hok t (List.mem_cons_of_mem _ ht)
          simpa [updSlot, he] using hnone
      obtain ⟨htr, r2, h2⟩ := ih (updSlot r t' v) (List.Nodup.of_cons hnd) hok2
      constructor
      · have hfe : ts.filter (fun t => ((updSlot r t' v) t).isNone)
            = ts.filter (fun t => (r t).isNone) := by
          apply List.filter_congr
          intro t ht
          have hne : t ≠ t' := fun he => ht'nmem (he ▸ ht)
          simp [updSlot, hne]
        have hfilter : (t' :: ts).filter (fun t => (r t).isNone)
            = t' :: ts.filter (fun t => (r t).isNone) := by
          simp [List.filter_cons, hr]
        rw [hfilter]
        simp only [htr, hfe]
      · exact ⟨r2, h2⟩

/-- When the fallback pass finishes without an exception, every slot of
the processed list holds a result. -/
theorem fbRun_slots (fb : TaskId → Except Unit Payload) :
    ∀ (ts : List TaskId) (r r2 : TaskId → Option Payload),
      (fbRun fb ts r).2 = Except.ok r2 →
      ∀ t, (t ∈ ts ∨ (r t).isSome = true) → (r2 t).isSome = true := by
  intro ts
  induction ts with
  | nil =>
    intro r r2 h t ht
    simp only [fbRun] at h
    cases h
    rcases ht with h1 | h2
    · exact absurd h1 (List.not_mem_nil t)
    · exact h2
  | cons t' ts ih =>
    intro r r2 h t ht
    simp only [fbRun] at h
    cases hr : r t' with
    | some q =>
      rw [hr] at h
      apply ih r r2 h t
      rcases ht with h1 | h2
      · rcases List.mem_cons.mp h1 with he | hm
        · right; rw [he, hr]; rfl
        · left; exact hm
      · right; exact h2
    | none =>
      rw [hr] at h
      cases hfb : fb t' with
      | error e => rw [hfb] at h; exact Except.noConfusion h
      | ok v =>
        rw [hfb] at h
        apply ih (updSlot r t' v) r2 h t
        rcases ht with h1 | h2
        · rcases List.mem_cons.mp h1 with he | hm
          · right; rw [he]; simp [updSlot]
          · left; exact hm
        · right
          by_cases he : t = t'
          · rw [he]; simp [updSlot]
          · simpa [updSlot, he] using h2

/-- C1 (amended): classifier exceptions in the parallel phase never
propagate (they only leave the slot empty for the fallback pass), and
whenever every fallback re-run that is needed returns normally, the
aggregator returns without raising and every slot of the result is
present.  However, an exception raised by a fallback re-run itself (the
fallback calls are unguarded, and the damage/soil agents re-raise on API
failure) propagates out of the aggregator — see the counterexample. -/
theorem aggregator_no_raise_when_fallback_ok :
    ∀ (par : TaskId → ParOutcome) (fb : TaskId → Except Unit Payload),
      (∀ t, collectResults par t = Option.none → ∃ v, fb t = Except.ok v) →
      ∃ r2, _run_parallel_with_fallback par fb = Except.ok r2
        ∧ ∀ t, (r2 t).isSome = true := by
  intro par fb h
  obtain ⟨htr, r2, h2⟩ := fbRun_trace_exact fb taskOrder (collectResults par)
    taskOrder_nodup (fun t _ => h t)
  exact ⟨r2, h2, fun t => fbRun_slots fb taskOrder _ r2 h2 t (Or.inl (mem_taskOrder t))⟩

/-- C1 counterexample: when the damage classifier raises in the parallel
phase and its fallback re-run raises again, the exception propagates out
of `_run_parallel_with_fallback` — the aggregator does NOT convert a
fallback failure into a default slot value. -/
theorem aggregator_raises_counterexample :
    _run_parallel_with_fallback parDamageExn fbAllFail = Except.error () := rfl

/-- C1 witness: damage fails in the parallel phase, the fallback re-run
succeeds, and the aggregator returns a complete result. -/
theorem aggregator_no_raise_witness :
    ∃ r2, _run_parallel_with_fallback parDamageExn fbAllOk = Except.ok r2
      ∧ ∀ t, (r2 t).isSome = true :=
  aggregator_no_raise_when_fallback_ok parDamageExn fbAllOk
    (fun _ _ => ⟨okPayload, rfl⟩)

/-- C2 (amended): a task that completed successfully within the deadline
is never re-run; when no needed fallback re-run raises, exactly the tasks
without a successful result are re-run, once each, in the fixed slot
order; and when all tasks complete in time the fallback pass performs
zero re-executions.  (When a fallback re-run raises, the pass aborts and
later missing tasks are not re-run — see the counterexample.) -/
theorem fallback_exactness_amended :
    ∀ (par : TaskId → ParOutcome) (fb : TaskId → Except Unit Payload),
      (∀ t p, collectResults par t = some p → t ∉ fallbackTrace par fb)
      ∧ ((∀ t, collectResults par t = Option.none → ∃ v, fb t = Except.ok v) →
          fallbackTrace par fb
            = taskOrder.filter (fun t => (collectResults par t).isNone))
      ∧ ((∀ t, (collectResults par t).isSome = true) → fallbackTrace par fb = []) := by
  intro par fb
  refine ⟨fun t p hp => fbRun_not_mem_of_some fb taskOrder _ t p hp,
    fun h => (fbRun_trace_exact fb taskOrder _ taskOrder_nodup (fun t _ => h t)).1,
    fun h => ?_⟩
  have htr := (fbRun_trace_exact fb taskOrder (collectResults par) taskOrder_nodup
    (fun t _ hnone => by have := h t; rw [hnone] at this; simp at this)).1
  rw [show fallbackTrace par fb = (fbRun fb taskOrder (collectResults par)).1 from rfl, htr]
  apply List.filter_eq_nil_iff.mpr
  intro t _
  have := h t
  cases hc : collectResults par t
  · rw [hc] at this; simp at this
  · simp [hc]

/-- C2 counterexample: with material failed and damage still pending
after the parallel phase, a raising material fallback aborts the pass:
the trace is `[material]` only, so the damage task — which has no
successful result — is re-run zero times, not exactly once. -/
theorem fallback_exactness_counterexample :
    collectResults parTwoMissing TaskId.damage = Option.none
    ∧ fallbackTrace parTwoMissing fbMaterialFails = [TaskId.material]
    ∧ TaskId.damage ∉ fallbackTrace parTwoMissing fbMaterialFails := by
  refine ⟨rfl, rfl, ?_⟩
  rw [show fallbackTrace parTwoMissing fbMaterialFails = [TaskId.material] from rfl]
  decide

/-- C2 witness: when all four tasks complete in time, the fallback pass
performs zero re-executions. -/
theorem fallback_exactness_witness :
    fallbackTrace parAllOk fbAllOk = [] :=
  (fallback_exactness_amended parAllOk fbAllOk).2.2 (fun t => by cases t <;> rfl)

/- ===================== safe-parse theorems ===================== -/

/-- C8 (amended): the safe-parse step is total — it returns for every raw
payload and any loader behaviour: a dict passes through unchanged, a
payload the loader parses yields the parsed value (which need NOT be a
record: a bare JSON number yields that number, see the counterexample),
and any unparseable payload — including null, the empty string and
non-JSON text — is replaced by the kind's default record. -/
theorem parse_json_maybe_total :
    (∀ (loads : PyVal → Except Unit PyVal) (resp d : PyVal),
      (resp.isDict = true → _parse_json_maybe loads resp d = resp)
      ∧ (∀ v, resp.isDict = false → loads resp = Except.ok v →
          _parse_json_maybe loads resp d = v)
      ∧ (resp.isDict = false → loads resp = Except.error () →
          _parse_json_maybe loads resp d = d))
    ∧ (∀ d : PyVal, _parse_json_maybe json_loads PyVal.none d = d)
    ∧ (∀ d : PyVal, _parse_json_maybe json_loads (PyVal.str "") d = d)
    ∧ (∀ d : PyVal, _parse_json_maybe json_loads (PyVal.str "not json") d = d) := by
  refine ⟨?_, fun d => rfl, fun d => rfl, fun d => rfl⟩
  intro loads resp d
  refine ⟨?_, ?_, ?_⟩
  · intro hd
    cases resp <;> simp_all [_parse_json_maybe, PyVal.isDict]
  · intro v hnd hl
    cases resp <;> simp_all [_parse_json_maybe, PyVal.isDict]
  · intro hnd hl
    cases resp <;> simp_all [_parse_json_maybe, PyVal.isDict]

/-- C8 witness: an already-structured dict passes through unchanged. -/
theorem parse_json_maybe_total_witness :
    _parse_json_maybe json_loads materialDefault typeDefault = materialDefault :=
  (parse_json_maybe_total.1 json_loads materialDefault typeDefault).1 rfl

/-- C8 counterexample: the well-formed JSON payload `"123"` safe-parses to
the integer 123 — not a record, and not the default record. -/
theorem parse_json_maybe_not_record :
    _parse_json_maybe json_loads (PyVal.str "123") typeDefault = PyVal.int 123
    ∧ (PyVal.int 123).isDict = false
    ∧ typeDefault.isDict = true :=
  ⟨rfl, rfl, rfl⟩

/-- C9 (amended): normalization is idempotent on every input whose first
normalization yields a dict — in particular a record already in canonical
dict form passes through unchanged, and an unparseable input maps to the
(dict) default, both fixed points.  (A payload parsing to a non-dict JSON
value is not a fixed point, see the counterexample.) -/
theorem normalize_idempotent_on_dicts :
    ∀ (loads : PyVal → Except Unit PyVal) (x d : PyVal),
      (x.isDict = true → _parse_json_maybe loads x d = x)
      ∧ ((_parse_json_maybe loads x d).isDict = true →
          _parse_json_maybe loads (_parse_json_maybe loads x d) d
            = _parse_json_maybe loads x d) := by
  intro loads x d
  constructor
  · intro hd
    cases x <;> simp_all [_parse_json_maybe, PyVal.isDict]
  · intro hd
    cases hy : _parse_json_maybe loads x d <;> rw [hy] at hd <;>
      simp_all [_parse_json_maybe, PyVal.isDict]

/-- C9 witness: normalizing the canonical damage default twice equals
normalizing it once. -/
theorem normalize_idempotent_witness :
    _parse_json_maybe json_loads
      (_parse_json_maybe json_loads damageDefault typeDefault) typeDefault
      = _parse_json_maybe json_loads damageDefault typeDefault :=
  (normalize_idempotent_on_dicts json_loads damageDefault typeDefault).2 rfl

/-- C9 counterexample: `normalize("123")` is the integer 123, but
`normalize(normalize("123"))` is the default record (`json.loads(123)`
raises `TypeError`), so `normalize ∘ normalize ≠ normalize` on `"123"`. -/
theorem normalize_not_idempotent :
    _parse_json_maybe json_loads (PyVal.str "123") typeDefault = PyVal.int 123
    ∧ _parse_json_maybe json_loads
        (_parse_json_maybe json_loads (PyVal.str "123") typeDefault) typeDefault
        = typeDefault
    ∧ typeDefault ≠ PyVal.int 123 :=
  ⟨rfl, rfl, fun h => PyVal.noConfusion h⟩

/- ===================== aggregation theorems ===================== -/

/-- C7 counterexample: a parseable payload mapping "type" to "spaceship"
puts the out-of-taxonomy category string "spaceship" verbatim into the
report; a parseable payload mapping "absolute_grade" to "Z" puts the
out-of-taxonomy grade "Z" into the report; and a parseable damage
payload without grade keys (the default record) leaves the report's grade
`None` — not coerced to `C`. -/
theorem taxonomy_not_coerced :
    (process_aggregate (PyVal.dict [("type", PyVal.str "spaceship")]) materialDefault
        (PyVal.dict [("absolute_grade", PyVal.str "Z")]) soilDefault).map AggFields.toy_type
      = Except.ok (PyVal.str "spaceship")
    ∧ "spaceship" ∉ TYPE_TAXONOMY
    ∧ (process_aggregate (PyVal.dict [("type", PyVal.str "spaceship")]) materialDefault
        (PyVal.dict [("absolute_grade", PyVal.str "Z")]) soilDefault).map
          AggFields.abs_damage_grade
      = Except.ok (PyVal.str "Z")
    ∧ "Z" ∉ GRADE_LETTERS
    ∧ (process_aggregate typeDefault materialDefault damageDefault soilDefault).map
        AggFields.abs_damage_grade = Except.ok PyVal.none :=
  ⟨rfl, by decide, rfl, by decide, rfl⟩

/-- C7 (amended): the aggregation step performs no taxonomy coercion — a
parseable payload's category string is copied verbatim into the report
(whatever it is), a parseable damage payload without grade keys leaves
the report grade `None` (unset), and the normalization of unrecognized
grades to `C` happens only at the price-multiplier lookup, which maps any
unrecognized grade to the `C` multiplier `0.90`. -/
theorem taxonomy_passthrough :
    (∀ (tl : List (String × PyVal)) (v : PyVal), pyLookup tl "type" = some v →
      (process_aggregate (PyVal.dict tl) materialDefault damageDefault soilDefault).map
        AggFields.toy_type = Except.ok v)
    ∧ (∀ (dl : List (String × PyVal)) (agg : AggFields),
        process_aggregate typeDefault materialDefault (PyVal.dict dl) soilDefault
          = Except.ok agg →
        pyLookup dl "absolute_grade" = Option.none → pyLookup dl "grade" = Option.none →
        agg.abs_damage_grade = PyVal.none)
    ∧ (∀ g : String, pyUpper (pyStrip g) ∉ GRADE_LETTERS →
        _grade_to_multiplier (some g) = 9/10) := by
  refine ⟨?_, ?_, ?_⟩
  · intro tl v h
    have hred : process_aggregate (PyVal.dict tl) materialDefault damageDefault soilDefault
        = Except.ok ⟨pyGet tl "type" (PyVal.str "others"),
            pyGet tl "battery" (PyVal.str "unknown"),
            pyGet tl "size" (PyVal.str "unknown"), "unknown",
            PyVal.none, PyVal.none, PyVal.str "unknown",
            PyVal.none, PyVal.none, PyVal.str "unknown"⟩ := rfl
    rw [hred]
    simp [Except.map, pyGet, h]
  · intro dl agg hagg h1 h2
    have key : process_aggregate typeDefault materialDefault (PyVal.dict dl) soilDefault
        = (match getSummary (pyOr (pyGet dl "overall" PyVal.none) (PyVal.dict [])) with
          | Except.error e => Except.error e
          | Except.ok dsum =>
            Except.ok ⟨PyVal.str "others", PyVal.str "unknown", PyVal.str "unknown",
              "unknown",
              pyOr (pyGet dl "absolute_grade" PyVal.none) (pyGet dl "grade" PyVal.none),
              pyOr (pyGet dl "absolute_score_avg" PyVal.none)
                (pyGet dl "query_damage_score" PyVal.none),
              dsum, PyVal.none, PyVal.none, PyVal.str "unknown"⟩) := rfl
    rw [key] at hagg
    cases hov : getSummary (pyOr (pyGet dl "overall" PyVal.none) (PyVal.dict [])) with
    | error e =>
      rw [hov] at hagg
      exact Except.noConfusion hagg
    | ok dsum =>
      rw [hov] at hagg
      have hagg2 : Except.ok (⟨PyVal.str "others", PyVal.str "unknown",
          PyVal.str "unknown", "unknown",
          pyOr (pyGet dl "absolute_grade" PyVal.none) (pyGet dl "grade" PyVal.none),
          pyOr (pyGet dl "absolute_score_avg" PyVal.none)
            (pyGet dl "query_damage_score" PyVal.none),
          dsum, PyVal.none, PyVal.none, PyVal.str "unknown"⟩ : AggFields)
          = Except.ok agg := hagg
      injection hagg2 with he
      rw [← he]
      simp [pyGet, h1, h2, pyOr, PyVal.truthy]
  · intro g hg
    simp only [_grade_to_multiplier, Option.getD]
    split_ifs with h1 h2 h3 h4 h5
    · exact absurd (by rw [h1]; decide) hg
    · exact absurd (by rw [h2]; decide) hg
    · rfl
    · exact absurd (by rw [h4]; decide) hg
    · exact absurd (by rw [h5]; decide) hg
    · rfl

/-- C7 witness: a recognized category is likewise copied verbatim. -/
theorem taxonomy_passthrough_witness :
    (process_aggregate (PyVal.dict [("type", PyVal.str "robot")]) materialDefault
        damageDefault soilDefault).map AggFields.toy_type = Except.ok (PyVal.str "robot") :=
  taxonomy_passthrough.1 [("type", PyVal.str "robot")] (PyVal.str "robot") rfl

/- ===================== soil-agent theorems ===================== -/

theorem isPrefixOf_append_infixCheck [BEq α] (p s t : List α)
    (h : (p ++ s).isPrefixOf t = true) : infixCheck s t = true := by
  induction p generalizing t with
  | nil =>
    simp only [List.nil_append] at h
    cases t with
    | nil =>
      cases s with
      | nil => rfl
      | cons a as => simp [List.isPrefixOf] at h
    | cons b bs =>
      simp only [infixCheck]
      rw [h]
      rfl
  | cons a as ih =>
    cases t with
    | nil => simp [List.isPrefixOf] at h
    | cons b bs =>
      simp only [List.cons_append, List.isPrefixOf, Bool.and_eq_true] at h
      have := ih bs h.2
      simp only [infixCheck, this, Bool.or_true]

theorem infixCheck_of_append [BEq α] (p s t : List α)
    (h : infixCheck (p ++ s) t = true) : infixCheck s t = true := by
  induction t with
  | nil =>
    simp only [infixCheck, List.isEmpty_eq_true, List.append_eq_nil] at h ⊢
    simp [h.2]
  | cons b bs ih =>
    simp only [infixCheck, Bool.or_eq_true] at h ⊢
    rcases h with h1 | h2
    · have := isPrefixOf_append_infixCheck p s (b :: bs) h1
      simp only [infixCheck, Bool.or_eq_true] at this
      exact this
    · exact Or.inr (ih h2)

theorem substrIn_of_very_dirty (t : String)
    (h : substrIn "매우 더러움" t = true) : substrIn "더러움" t = true := by
  have hsplit : ("매우 더러움").data = ("매우 ").data ++ ("더러움").data := rfl
  unfold substrIn at h ⊢
  rw [hsplit] at h
  exact infixCheck_of_append _ _ _ h

theorem soilLabelLoop_bounds (t : String) :
    1 ≤ soilLabelLoop _SOIL_LABEL_TO_ABS t ∧ soilLabelLoop _SOIL_LABEL_TO_ABS t ≤ 4 := by
  simp only [_SOIL_LABEL_TO_ABS, soilLabelLoop]
  split_ifs with h1 h2 h3 h4 h5
  · norm_num
  · norm_num
  · norm_num
  · norm_num
  · exact absurd (substrIn_of_very_dirty t h5) h4
  · norm_num

theorem label_to_abs_bounds (s : PyVal) (v : ℤ) (h : _label_to_abs s = Except.ok v) :
    1 ≤ v ∧ v ≤ 4 := by
  unfold _label_to_abs at h
  cases hp : pyOr s (PyVal.str "") <;> rw [hp] at h
  case str t =>
    injection h with hv
    rw [← hv]
    exact soilLabelLoop_bounds (pyStrip t)
  all_goals exact Except.noConfusion h

/-- C10: because the substring check for "더러움" precedes the "매우 더러움"
entry in the label table, `_label_to_abs` maps the label "매우 더러움" to
score 1 (grade D), not 0; consequently `analyze` returns absolute grade
"E" only when the label scores 1 and the payload's notes contain one of
the severe-dirt keywords. -/
theorem soil_e_grade_condition :
    _label_to_abs (PyVal.str "매우 더러움") = Except.ok 1
    ∧ _score_to_grade_single 1 = "D"
    ∧ ∀ (bl : List (String × PyVal)) (out : PyVal),
        soil_analyze_post (PyVal.dict bl) = Except.ok out →
        pyGetOut out "absolute_grade" = some (PyVal.str "E") →
        _label_to_abs (pyOr (pyGet bl "soil" PyVal.none) (PyVal.str "보통")) = Except.ok 1
        ∧ notesHasSevere bl = true := by
  refine ⟨rfl, rfl, ?_⟩
  intro bl out h hE
  have key : soil_analyze_post (PyVal.dict bl)
      = (match pyOr (pyGet bl "overall" PyVal.none) (PyVal.dict []) with
        | PyVal.dict ovl =>
          (match pyOr (pyGet bl "notes" PyVal.none) (PyVal.str "") with
          | PyVal.str notesRaw =>
            (match _label_to_abs (pyOr (pyGet bl "soil" PyVal.none) (PyVal.str "보통")) with
            | Except.error e => Except.error e
            | Except.ok soil_abs0 =>
              Except.ok (PyVal.dict
                [("overall", pyGet bl "overall" (PyVal.dict [("summary",
                    pyOr (pyGet ovl "summary" PyVal.none) (PyVal.str ""))])),
                 ("absolute_score_avg", PyVal.float
                   (((if soil_abs0 = 1 ∧ (_SEVERE_DIRT_KWS.any fun k =>
                        substrIn k (pyLower notesRaw)) = true
                      then 0 else soil_abs0) : ℤ) : ℚ)),
                 ("absolute_grade", PyVal.str (_score_to_grade_single
                   (if soil_abs0 = 1 ∧ (_SEVERE_DIRT_KWS.any fun k =>
                        substrIn k (pyLower notesRaw)) = true
                    then 0 else soil_abs0)))]))
          | _ => Except.error ())
        | _ => Except.error ()) := rfl
  rw [key] at h
  cases hov : pyOr (pyGet bl "overall" PyVal.none) (PyVal.dict []) <;> rw [hov] at h
  case dict ovl =>
    cases hnt : pyOr (pyGet bl "notes" PyVal.none) (PyVal.str "") <;> rw [hnt] at h
    case str notesRaw =>
      cases hla : _label_to_abs (pyOr (pyGet bl "soil" PyVal.none) (PyVal.str "보통")) <;>
        rw [hla] at h
      case error e => exact Except.noConfusion h
      case ok soil_abs0 =>
        have hb := label_to_abs_bounds _ _ hla
        replace h : Except.ok (PyVal.dict
            [("overall", pyGet bl "overall" (PyVal.dict [("summary",
                pyOr (pyGet ovl "summary" PyVal.none) (PyVal.str ""))])),
             ("absolute_score_avg", PyVal.float
               (((if soil_abs0 = 1 ∧ (_SEVERE_DIRT_KWS.any fun k =>
                    substrIn k (pyLower notesRaw)) = true
                  then 0 else soil_abs0) : ℤ) : ℚ)),
             ("absolute_grade", PyVal.str (_score_to_grade_single
               (if soil_abs0 = 1 ∧ (_SEVERE_DIRT_KWS.any fun k =>
                    substrIn k (pyLower notesRaw)) = true
                then 0 else soil_abs0)))]) = Except.ok out := h
        injection h with hout
        rw [← hout] at hE
        have hg : some (PyVal.str (_score_to_grade_single
            (if soil_abs0 = 1 ∧ (_SEVERE_DIRT_KWS.any fun k =>
                 substrIn k (pyLower notesRaw)) = true
             then 0 else soil_abs0))) = some (PyVal.str "E") := hE
        injection hg with hg1
        injection hg1 with hg2
        by_cases hcond : soil_abs0 = 1 ∧ (_SEVERE_DIRT_KWS.any fun k =>
            substrIn k (pyLower notesRaw)) = true
        · refine ⟨by rw [hcond.1], ?_⟩
          simp only [notesHasSevere]
          rw [hnt]
          exact hcond.2
        · exfalso
          rw [if_neg hcond] at hg2
          obtain ⟨hb1, hb2⟩ := hb
          interval_cases soil_abs0 <;> exact absurd hg2 (by decide)
    all_goals exact Except.noConfusion h
  all_goals exact Except.noConfusion h

/-- C10 witness: a payload with soil label "더러움" and notes
"sticky goo" is graded E, its label scoring 1 with a severe keyword in
the notes. -/
theorem soil_e_grade_condition_witness :
    _label_to_abs (pyOr (pyGet [("soil", PyVal.str "더러움"),
        ("notes", PyVal.str "sticky goo")] "soil" PyVal.none) (PyVal.str "보통"))
      = Except.ok 1
    ∧ notesHasSevere [("soil", PyVal.str "더러움"), ("notes", PyVal.str "sticky goo")]
      = true :=
  soil_e_grade_condition.2.2
    [("soil", PyVal.str "더러움"), ("notes", PyVal.str "sticky goo")]
    (PyVal.dict
      [("overall", PyVal.dict [("summary", PyVal.str "")]),
       ("absolute_score_avg", PyVal.float ((0 : ℤ) : ℚ)),
       ("absolute_grade", PyVal.str "E")])
    rfl rfl
